import Mathlib

/-!
Shallow embedding of the two analyzer scripts
(`scripts/analyze_network_iterative.py` and `scripts/analyze_network_local.py`)
of the Agent-Network-Expander-Template repository, together with proofs of the
spec claims about them.  External collaborators (the filesystem, the `ollama`
client, `json.loads`, the interactive terminal) are modelled as explicit inputs;
everything else is a direct translation of the Python source.
-/

/-! ## Python string primitives used by the scripts -/

/-- Model of Python `str.lower()` (ASCII case folding, which covers every
string the scripts compare). -/
def pyLower (s : String) : String :=
  ⟨s.data.map Char.toLower⟩

/-- Model of Python `str.strip()`: drop leading and trailing whitespace. -/
def pyStrip (s : String) : String :=
  ⟨((s.data.dropWhile Char.isWhitespace).reverse.dropWhile Char.isWhitespace).reverse⟩

/-- Model of Python `str.find(c)`: index of the first occurrence, `-1` if absent. -/
def pyFind (s : String) (c : Char) : Int :=
  match s.data.findIdx? (fun x => x == c) with
  | some i => (i : Int)
  | none => -1

/-- Model of Python `str.rfind(c)`: index of the last occurrence, `-1` if absent. -/
def pyRfind (s : String) (c : Char) : Int :=
  match s.data.reverse.findIdx? (fun x => x == c) with
  | some i => ((s.data.length - 1 - i : Nat) : Int)
  | none => -1

/-- Model of the Python slice `s[a:b]` for `0 ≤ a`, `0 ≤ b`. -/
def pySlice (s : String) (a b : Nat) : String :=
  ⟨(s.data.take b).drop a⟩

/-- Model of the Python substring test `sub in hay`. -/
def strContains (hay sub : String) : Bool :=
  (List.range (hay.data.length + 1)).any
    (fun i => ((hay.data.drop i).take sub.data.length) == sub.data)

/-- Model of `pathlib.PurePath.suffix` on a file name: the part from the last
dot on, unless the dot is the first or last character. -/
def pySuffix (name : String) : String :=
  let i := pyRfind name '.'
  if 0 < i ∧ i + 1 < (name.length : Int) then ⟨name.data.drop i.toNat⟩ else ""

/-- Model of Python `str.lstrip(".")`. -/
def stripDots (s : String) : String :=
  ⟨s.data.dropWhile (fun c => c == '.')⟩

/-- Splitting on a non-empty separator, with explicit recursion fuel (every
step consumes at least one character, so `l.length + 1` fuel is enough). -/
def splitOnFuel (sep : List Char) : Nat → List Char → List (List Char)
  | 0, l => [l]
  | fuel + 1, l =>
    if sep ≠ [] ∧ l.take sep.length == sep then
      [] :: splitOnFuel sep fuel (l.drop sep.length)
    else
      match l with
      | [] => [[]]
      | c :: cs =>
        match splitOnFuel sep fuel cs with
        | [] => [[c]]
        | h :: t => (c :: h) :: t

/-- Model of Python `str.split(sep)` for a non-empty separator: split at each
non-overlapping, leftmost-first occurrence of `sep`. -/
def pySplitOn (s sep : String) : List String :=
  (splitOnFuel sep.data (s.data.length + 1) s.data).map (fun l => ⟨l⟩)

/-- Concatenation of a list of strings (used to state summary-file theorems). -/
def strJoin : List String → String
  | [] => ""
  | x :: xs => x ++ strJoin xs

/-! ## Data model: agent suggestions -/

/-- An agent suggestion dictionary as produced by parsing the LLM's JSON
answer in `generate_agent_suggestions` (keys used by the scripts). -/
structure Agent where
  name : String
  type : String
  priority : String
  purpose : String
  rationale : String
  responsibilities : List String
  interfaces : String
  value : String
deriving DecidableEq

/-! ## `read_file_safe` (identical in both scripts) -/

/-- The observable behaviour of one file for `read_file_safe`: the result of
`Path.stat().st_size` and of `Path.read_text(...)`, each of which can raise
(modelled as `Except` with the exception text). -/
structure FileModel where
  statResult : Except String Nat
  readResult : Except String String

/-- The default `max_size` argument of `read_file_safe` (100000 bytes). -/
def defaultMaxSize : Nat := 100000

/-- Translation of `read_file_safe` (same body in both scripts).  The
codomain is `Option String` because the Python signature is `Optional[str]`;
every `return` statement of the source returns a string, hence every branch
here is `some`. -/
def readFileSafe (f : FileModel) (maxSize : Nat) : Option String :=
  match f.statResult with
  | Except.error e => some ("[Error reading file: " ++ e ++ "]")
  | Except.ok size =>
    if size > maxSize then
      some ("[File too large: " ++ toString size ++ " bytes]")
    else
      match f.readResult with
      | Except.error e => some ("[Error reading file: " ++ e ++ "]")
      | Except.ok content => some content

/-! ## `generate_agent_suggestions` (iterative script) -/

/-- Translation of the response handling of `generate_agent_suggestions`.
`genResult` models the `ollama.generate` call (which can raise, caught by the
final `except Exception`), and `loads` models `json.loads` restricted to this
call site (`none` models `json.JSONDecodeError`). -/
def generateAgentSuggestions (genResult : Except String String)
    (loads : String → Option (List Agent)) : List Agent :=
  match genResult with
  | Except.error _ => []
  | Except.ok raw =>
    let responseText := pyStrip raw
    let start := pyFind responseText '['
    let stopIdx := pyRfind responseText ']' + 1
    if start ≥ 0 ∧ stopIdx > start then
      match loads (pySlice responseText start.toNat stopIdx.toNat) with
      | some suggestions => suggestions
      | none => []
    else []

/-! ## Glob matching and `discover_agents` (identical in both scripts) -/

/-- `fnmatch`-style matching of one path component against one pattern
component, with explicit recursion fuel (every call consumes one character of
the pattern or of the string, so `p.length + s.length + 1` fuel is always
enough): `*` matches any (possibly empty) run of characters, everything else
matches literally. -/
def compMatchFuel : Nat → List Char → List Char → Bool
  | 0, _, _ => false
  | fuel + 1, p, s =>
    match p, s with
    | [], rest => rest.isEmpty
    | '*' :: ps, rest =>
      compMatchFuel fuel ps rest ||
        (match rest with
         | [] => false
         | _ :: s2 => compMatchFuel fuel ('*' :: ps) s2)
    | pc :: ps, c :: s2 => (pc == c) && compMatchFuel fuel ps s2
    | _ :: _, [] => false

/-- Matching of one path component against one pattern component.  This is
the per-component semantics `pathlib` uses for glob patterns. -/
def compMatch (p s : List Char) : Bool :=
  compMatchFuel (p.length + s.length + 1) p s

/-- Matching of a relative path (list of components) against a glob pattern
(list of pattern components), with explicit recursion fuel: a `**` component
matches any number of leading path components (including zero), any other
component matches exactly one path component via `compMatch`. -/
def pathMatchFuel : Nat → List (List Char) → List (List Char) → Bool
  | 0, _, _ => false
  | fuel + 1, ps, comps =>
    match ps, comps with
    | [], rest => rest.isEmpty
    | pc :: ps2, rest =>
      if pc = ['*', '*'] then
        pathMatchFuel fuel ps2 rest ||
          (match rest with
           | [] => false
           | _ :: cs => pathMatchFuel fuel (pc :: ps2) cs)
      else
        match rest with
        | [] => false
        | c :: cs => compMatch pc c && pathMatchFuel fuel ps2 cs

/-- Matching of a relative path against a glob pattern. -/
def pathMatch (ps comps : List (List Char)) : Bool :=
  pathMatchFuel (ps.length + comps.length + 1) ps comps

/-- Split a pattern string into its `/`-separated components. -/
def splitComps : List Char → List (List Char)
  | [] => [[]]
  | c :: cs =>
    if c = '/' then [] :: splitComps cs
    else
      match splitComps cs with
      | [] => [[c]]
      | h :: t => (c :: h) :: t

/-- `Path.rglob(pattern)` hit test: `rglob` prefixes the pattern with `**/`
and matches it against the path relative to the searched directory. -/
def rglobMatches (pat : String) (path : List String) : Bool :=
  pathMatch (['*', '*'] :: splitComps pat.data) (path.map (fun s => s.data))

/-- A filesystem entry below the searched directory: its relative path
(components) and whether it is a regular file. -/
structure FsEntry where
  path : List String
  isFile : Bool
deriving DecidableEq

/-- Model of `directory.rglob(pattern)`: all entries whose relative path
matches the pattern (directories included; the scripts filter with
`is_file()` afterwards). -/
def rglob (fs : List FsEntry) (pat : String) : List FsEntry :=
  fs.filter (fun e => rglobMatches pat e.path)

/-- The result dictionary of `discover_agents`: file lists keyed by the five
extension buckets. -/
structure AgentFiles where
  json : List FsEntry
  yaml : List FsEntry
  md : List FsEntry
  txt : List FsEntry
  other : List FsEntry
deriving DecidableEq

/-- The initial (empty) `agent_files` dictionary. -/
def emptyAgentFiles : AgentFiles := ⟨[], [], [], [], []⟩

/-- The glob pattern list of `discover_agents` (both scripts). -/
def agentPatterns : List String :=
  ["*agent*.json", "*agent*.yaml", "*agent*.yml", "*.agent.*",
   "*prompt*.md", "*system*.md", "agents/**/*", "prompts/**/*", ".claude/**/*"]

/-- `file_path.suffix.lower().lstrip(".")` on the last path component. -/
def extOf (e : FsEntry) : String :=
  stripDots (pyLower (pySuffix (e.path.getLastD "")))

/-- The bucket insertion of `discover_agents`: append to the bucket named by
the extension if it is one of the dictionary keys, else to `other`. -/
def addEntry (af : AgentFiles) (e : FsEntry) : AgentFiles :=
  let ext := extOf e
  if ext == "json" then { af with json := af.json ++ [e] }
  else if ext == "yaml" then { af with yaml := af.yaml ++ [e] }
  else if ext == "md" then { af with md := af.md ++ [e] }
  else if ext == "txt" then { af with txt := af.txt ++ [e] }
  else { af with other := af.other ++ [e] }

/-- The body of the inner loop of `discover_agents`: only regular files are
bucketed. -/
def discoverStep (af : AgentFiles) (e : FsEntry) : AgentFiles :=
  if e.isFile then addEntry af e else af

/-- The body of the outer (per-pattern) loop of `discover_agents`. -/
def patternStep (fs : List FsEntry) (af : AgentFiles) (pat : String) : AgentFiles :=
  (rglob fs pat).foldl discoverStep af

/-- Translation of `discover_agents`: iterate the patterns in order, and for
each pattern bucket every regular file returned by `rglob`. -/
def discoverAgents (fs : List FsEntry) : AgentFiles :=
  agentPatterns.foldl (patternStep fs) emptyAgentFiles

/-- All entries of the result dictionary, in bucket order. -/
def allEntries (af : AgentFiles) : List FsEntry :=
  af.json ++ af.yaml ++ af.md ++ af.txt ++ af.other

/-- `total = sum(len(files) for files in agent_files.values())` as computed in
`run_iterative`, `run` and `build_context`. -/
def totalAgentFiles (af : AgentFiles) : Nat :=
  af.json.length + af.yaml.length + af.md.length + af.txt.length + af.other.length

/-! ## `save_agent_prompt` (iterative script) -/

/-- The filename sanitisation of `save_agent_prompt`:
`name.lower().replace(" ", "-").replace("_", "-")` then keep only
alphanumerics and dashes. -/
def sanitizeIterName (name : String) : String :=
  let s := pyLower name
  let s : String := ⟨s.data.map (fun c => if c == ' ' then '-' else c)⟩
  let s : String := ⟨s.data.map (fun c => if c == '_' then '-' else c)⟩
  ⟨s.data.filter (fun c => c.isAlphanum || c == '-')⟩

/-- The output path chosen by `save_agent_prompt` for an accepted agent,
relative to the working directory: `findings/system-prompts/<kind>/<file>.md`
with `<kind>` decided by the agent's `type` field. -/
def saveAgentPromptPath (a : Agent) : List String :=
  let targetDir :=
    if a.type == "orchestration" then ["findings", "system-prompts", "orchestration"]
    else ["findings", "system-prompts", "action"]
  let filename := sanitizeIterName a.name
  targetDir ++ [filename ++ ".md"]

/-! ## `generate_system_prompts` (local script) -/

/-- The list of keywords of the orchestration heuristic in
`generate_system_prompts`. -/
def orchKeywords : List String := ["orchestrat", "coordinat", "rout", "priorit"]

/-- `is_orchestration`: some keyword occurs in the lower-cased prompt text. -/
def isOrchPrompt (txt : String) : Bool :=
  orchKeywords.any (fun w => strContains (pyLower txt) w)

/-- The name sanitisation applied to an extracted `Agent:` line in
`generate_system_prompts`. -/
def sanitizeLocalName (line : String) : String :=
  let nm := pyStrip ((pySplitOn line ":").getLastD "")
  let nm := pyLower nm
  let nm : String := ⟨nm.data.map (fun c => if c == ' ' then '-' else c)⟩
  ⟨nm.data.filter (fun c => c.isAlphanum || c == '-')⟩

/-- Agent-name extraction of `generate_system_prompts`: scan the first three
lines for one containing `Agent:` or `# Agent`; fall back to `agent-<i>`. -/
def extractAgentName (txt : String) (i : Nat) : String :=
  match ((pySplitOn txt "\n").take 3).find?
      (fun l => strContains l "Agent:" || strContains l "# Agent") with
  | some line => sanitizeLocalName line
  | none => "agent-" ++ toString i

/-- The relative paths of all prompt files written by
`generate_system_prompts` for a given LLM response: split on `---AGENT---`,
skip empty pieces, classify each piece with the orchestration heuristic. -/
def generateSystemPromptsPaths (resp : String) : List (List String) :=
  ((pySplitOn resp "---AGENT---").enum).filterMap (fun pr =>
    let piece := pyStrip pr.2
    if piece == "" then none
    else
      some ["findings", "system-prompts",
            (if isOrchPrompt piece then "orchestration" else "action"),
            extractAgentName piece (pr.1 + 1) ++ ".md"])

/-! ## The interactive review loop of `run_iterative` -/

/-- The four values `get_user_decision` can return. -/
inductive Decision
  | yes
  | no
  | skip
  | stop
deriving DecidableEq

/-- One attempt of the input loop of `get_user_decision`: strip and
lower-case the typed text, map it to a decision, `none` on invalid input. -/
def parseChoice (s : String) : Option Decision :=
  let c := pyLower (pyStrip s)
  if c == "y" || c == "yes" then some Decision.yes
  else if c == "n" || c == "no" then some Decision.no
  else if c == "s" || c == "skip" then some Decision.skip
  else if c == "q" || c == "quit" || c == "stop" then some Decision.stop
  else none

/-- `get_user_decision` over a finite prefix of the typed inputs: the first
valid choice wins; `none` models the loop still waiting for input. -/
def getUserDecision : List String → Option Decision
  | [] => none
  | s :: rest =>
    match parseChoice s with
    | some d => some d
    | none => getUserDecision rest

/-- The per-run state mutated by the review loop of `run_iterative`: the
three decision buckets, the suggestions presented so far (with their 1-based
index and the displayed total), and the prompt files saved for accepted
agents. -/
structure ReviewState where
  accepted : List Agent
  rejected : List Agent
  skipped : List Agent
  presented : List (Nat × Nat × Agent)
  savedFiles : List (List String)
deriving DecidableEq

/-- The state at the start of `run_iterative` (`self.decisions` starts with
three empty buckets). -/
def initState : ReviewState := ⟨[], [], [], [], []⟩

/-- Componentwise concatenation of review states (proof tool). -/
def mergeState (s1 s2 : ReviewState) : ReviewState :=
  ⟨s1.accepted ++ s2.accepted, s1.rejected ++ s2.rejected,
   s1.skipped ++ s2.skipped, s1.presented ++ s2.presented,
   s1.savedFiles ++ s2.savedFiles⟩

/-- Outcome of the review loop of `run_iterative`: either the loop finishes
normally (every suggestion reviewed, or the user chose `stop`) and control
reaches `save_summary`, or the run aborts with an uncaught exception. -/
inductive ReviewOutcome
  | completed : ReviewState → ReviewOutcome
  | crashed : ReviewState → ReviewOutcome
deriving DecidableEq

/-- The loop state carried by either outcome. -/
def outcomeState : ReviewOutcome → ReviewState
  | ReviewOutcome.completed st => st
  | ReviewOutcome.crashed st => st

/-- Componentwise concatenation of a start state onto the state carried by an
outcome (proof tool). -/
def mergeOutcome (s1 : ReviewState) : ReviewOutcome → ReviewOutcome
  | ReviewOutcome.completed st => ReviewOutcome.completed (mergeState s1 st)
  | ReviewOutcome.crashed st => ReviewOutcome.crashed (mergeState s1 st)

/-- Translation of the `for i, agent in enumerate(suggestions, 1)` review
loop of `run_iterative`: present the suggestion, then branch on the user's
decision.  The `yes` branch generates the system prompt, writes the prompt
file via `save_agent_prompt`, and then prints
`output_file.relative_to(Path.cwd())`.  `output_file` is a relative path
(rooted at `findings/`, since `self.findings_dir = Path("findings")`) while
`Path.cwd()` is always absolute, and `PurePath.relative_to` is purely
lexical, so this call unconditionally raises `ValueError`; the exception is
caught nowhere, so the run aborts after the prompt file is written and
before `self.decisions["accepted"].append(agent)` executes — the `accepted`
bucket is never extended and no further suggestion is reviewed.  `no` and
`skip` append to their buckets and continue; `stop` breaks the loop
normally. -/
def reviewLoop (ds : Nat → Decision) : List Agent → Nat → Nat → ReviewState → ReviewOutcome
  | [], _, _, st => ReviewOutcome.completed st
  | a :: rest, i, total, st =>
    match ds i with
    | Decision.yes =>
      ReviewOutcome.crashed
        { st with presented := st.presented ++ [(i, total, a)],
                  savedFiles := st.savedFiles ++ [saveAgentPromptPath a] }
    | Decision.no =>
      reviewLoop ds rest (i + 1) total
        { st with rejected := st.rejected ++ [a],
                  presented := st.presented ++ [(i, total, a)] }
    | Decision.skip =>
      reviewLoop ds rest (i + 1) total
        { st with skipped := st.skipped ++ [a],
                  presented := st.presented ++ [(i, total, a)] }
    | Decision.stop =>
      ReviewOutcome.completed { st with presented := st.presented ++ [(i, total, a)] }

/-- The review phase of `run_iterative`, given the parsed suggestion list and
the stream of user decisions (decision `ds i` is given at iteration `i`). -/
def runIterativeReview (suggestions : List Agent) (ds : Nat → Decision) : ReviewOutcome :=
  reviewLoop ds suggestions 1 suggestions.length initState

/-! ## `save_summary` (iterative script) -/

/-- The text written for one accepted agent in the summary file. -/
def acceptedEntryText (a : Agent) : String :=
  "### " ++ a.name ++ "\n" ++
  "- **Type**: " ++ a.type ++ "\n" ++
  "- **Priority**: " ++ a.priority ++ "\n" ++
  "- **Purpose**: " ++ a.purpose ++ "\n\n"

/-- The text written for one rejected agent in the summary file. -/
def rejectedEntryText (a : Agent) : String :=
  "- **" ++ a.name ++ "** (" ++ a.type ++ "): " ++ a.purpose ++ "\n"

/-- The text written for one skipped agent in the summary file. -/
def skippedEntryText (a : Agent) : String :=
  "### " ++ a.name ++ "\n" ++
  "- **Type**: " ++ a.type ++ "\n" ++
  "- **Priority**: " ++ a.priority ++ "\n" ++
  "- **Purpose**: " ++ a.purpose ++ "\n" ++
  "- **Rationale**: " ++ a.rationale ++ "\n\n"

/-- Translation of `save_summary`: the full contents written to
`findings/analysis-summary.md`, as the sequence of `f.write` calls of the
source accumulated in order.  `dirStr` models `directory.absolute()` and
`dateStr` the formatted `datetime.now()`. -/
def saveSummaryContent (dirStr dateStr modelStr : String)
    (accepted rejected skipped : List Agent) : String :=
  let s := "# Agent Network Expansion Summary\n\n"
  let s := s ++ ("**Analyzed Directory**: " ++ dirStr ++ "\n")
  let s := s ++ ("**Analysis Date**: " ++ dateStr ++ "\n")
  let s := s ++ ("**Model Used**: " ++ modelStr ++ "\n\n")
  let s := s ++ "---\n\n"
  let s := s ++ "## Summary\n\n"
  let s := s ++ ("- **Accepted**: " ++ toString accepted.length ++ " agents\n")
  let s := s ++ ("- **Rejected**: " ++ toString rejected.length ++ " agents\n")
  let s := s ++ ("- **Skipped**: " ++ toString skipped.length ++ " agents\n\n")
  let s :=
    if accepted.isEmpty then s
    else accepted.foldl (fun acc a => acc ++ acceptedEntryText a)
      (s ++ "## Accepted Agents\n\n")
  let s :=
    if rejected.isEmpty then s
    else (rejected.foldl (fun acc a => acc ++ rejectedEntryText a)
      (s ++ "## Rejected Agents\n\n")) ++ "\n"
  let s :=
    if skipped.isEmpty then s
    else skipped.foldl (fun acc a => acc ++ skippedEntryText a)
      (s ++ "## Skipped Agents (Review Later)\n\n")
  s

/-- What one full pass of `run_iterative` after suggestion generation
produces: either the contents of the summary file written by `save_summary`,
or an abnormal termination by the uncaught `ValueError` of the accept
branch, in which case the interpreter unwinds through `run_iterative` and
`main` and `save_summary` never runs. -/
inductive RunResult
  | summary : String → RunResult
  | uncaughtError : RunResult
deriving DecidableEq

/-- The review loop followed by `save_summary`, as `run_iterative` executes
them. -/
def runIterativeFlow (suggestions : List Agent) (ds : Nat → Decision)
    (dirStr dateStr modelStr : String) : RunResult :=
  match runIterativeReview suggestions ds with
  | ReviewOutcome.completed st =>
    RunResult.summary
      (saveSummaryContent dirStr dateStr modelStr st.accepted st.rejected st.skipped)
  | ReviewOutcome.crashed _ => RunResult.uncaughtError

/-! ## The `main` entry points -/

/-- The environment observed by either `main`: the directory checks, the two
`ollama.list()` calls (the second returns the available model names), the
answer typed at the `Continue anyway?` prompt, and the `--model` argument. -/
structure MainEnv where
  dirExists : Bool
  dirIsDir : Bool
  listResult : Except String (List String)
  listResult2 : Except String (List String)
  continueAnswer : String
  modelArg : String

/-- What a `main` run does: exit with a code before any analysis, or reach the
analysis phase (`analyzer.run_iterative` / `analyzer.run`) with the chosen
model. -/
inductive MainOutcome
  | exited : Nat → MainOutcome
  | ranAnalysis : String → MainOutcome
deriving DecidableEq

/-- Translation of `main` of the iterative script: directory checks, the
fatal `ollama.list()` reachability check, then the non-fatal model
availability check. -/
def mainIterative (env : MainEnv) : MainOutcome :=
  if !env.dirExists then MainOutcome.exited 1
  else if !env.dirIsDir then MainOutcome.exited 1
  else
    match env.listResult with
    | Except.error _ => MainOutcome.exited 1
    | Except.ok _ =>
      match env.listResult2 with
      | Except.error _ => MainOutcome.ranAnalysis env.modelArg
      | Except.ok modelNames =>
        if modelNames.any (fun n => strContains n env.modelArg) then
          MainOutcome.ranAnalysis env.modelArg
        else if pyLower env.continueAnswer == "y" then
          MainOutcome.ranAnalysis env.modelArg
        else MainOutcome.exited 1

/-- Translation of `main` of the local script; the control flow is the same
as the iterative one (the extra `--prompts` flag does not affect it). -/
def mainLocal (env : MainEnv) : MainOutcome :=
  if !env.dirExists then MainOutcome.exited 1
  else if !env.dirIsDir then MainOutcome.exited 1
  else
    match env.listResult with
    | Except.error _ => MainOutcome.exited 1
    | Except.ok _ =>
      match env.listResult2 with
      | Except.error _ => MainOutcome.ranAnalysis env.modelArg
      | Except.ok modelNames =>
        if modelNames.any (fun n => strContains n env.modelArg) then
          MainOutcome.ranAnalysis env.modelArg
        else if pyLower env.continueAnswer == "y" then
          MainOutcome.ranAnalysis env.modelArg
        else MainOutcome.exited 1

/-! ## Concrete inputs used by witnesses and counterexamples -/

/-- A concrete agent suggestion used in witnesses. -/
def agAlpha : Agent :=
  ⟨"alpha-router", "orchestration", "high", "routes tasks", "needed", [], "all agents", "focus"⟩

/-- A second concrete agent suggestion used in witnesses. -/
def agBeta : Agent :=
  ⟨"beta worker", "action", "low", "does work", "useful", [], "alpha-router", "throughput"⟩

/-- A concrete file that is over the size limit. -/
def bigFile : FileModel := ⟨Except.ok 100001, Except.ok "raw content"⟩

/-- A one-file directory whose single file matches two discovery patterns. -/
def dupEntry : FsEntry := ⟨["system-prompt.md"], true⟩

/-- The directory listing containing only `dupEntry`. -/
def dupFs : List FsEntry := [dupEntry]

/-- A concrete file inside an `agents/` subdirectory. -/
def nestedEntry : FsEntry := ⟨["agents", "helper.txt"], true⟩

/-- A startup environment in which the backend is unreachable. -/
def deadBackendEnv : MainEnv :=
  ⟨true, true, Except.error "connection refused", Except.ok [], "", "qwen2.5:14b-instruct-q5_K_M"⟩

/-! ## Theorems -/

/-- C4: if the stripped model response contains no bracketed array (`find`
fails or the computed end does not lie beyond the start), or `json.loads`
raises a decode error on the extracted slice, then
`generate_agent_suggestions` returns the empty list instead of raising. -/
theorem c4_parse_failure_empty (raw : String) (loads : String → Option (List Agent))
    (h : ¬ (pyFind (pyStrip raw) '[' ≥ 0 ∧ pyRfind (pyStrip raw) ']' + 1 > pyFind (pyStrip raw) '[')
      ∨ loads (pySlice (pyStrip raw) (pyFind (pyStrip raw) '[').toNat
          (pyRfind (pyStrip raw) ']' + 1).toNat) = none) :
    generateAgentSuggestions (Except.ok raw) loads = [] := by
  rcases h with h | h
  · simp only [generateAgentSuggestions]
    rw [if_neg h]
  · by_cases hc : pyFind (pyStrip raw) '[' ≥ 0 ∧ pyRfind (pyStrip raw) ']' + 1 > pyFind (pyStrip raw) '['
    · simp only [generateAgentSuggestions]
      rw [if_pos hc, h]
    · simp only [generateAgentSuggestions]
      rw [if_neg hc]

/-- Witness for C4 at a concrete bracket-free response. -/
theorem c4_parse_failure_empty_witness :
    generateAgentSuggestions (Except.ok "no array here") (fun _ => none) = [] :=
  c4_parse_failure_empty "no array here" (fun _ => none) (Or.inl (by decide))

/-- C5: when `stat` reports a size above the limit, `read_file_safe` returns
the size-annotated placeholder, and the result does not depend on the file's
content (the read is never consulted), so the raw content is never returned. -/
theorem c5_oversized_placeholder (f : FileModel) (size : Nat)
    (h1 : f.statResult = Except.ok size) (h2 : size > defaultMaxSize) :
    readFileSafe f defaultMaxSize = some ("[File too large: " ++ toString size ++ " bytes]")
    ∧ ∀ r : Except String String,
        readFileSafe { f with readResult := r } defaultMaxSize = readFileSafe f defaultMaxSize := by
  constructor
  · simp only [readFileSafe, h1]
    rw [if_pos h2]
  · intro r
    simp only [readFileSafe, h1]
    rw [if_pos h2, if_pos h2]

/-- Witness for C5 at a concrete 100001-byte file. -/
theorem c5_oversized_placeholder_witness :
    readFileSafe bigFile defaultMaxSize = some ("[File too large: " ++ toString 100001 ++ " bytes]")
    ∧ ∀ r : Except String String,
        readFileSafe { bigFile with readResult := r } defaultMaxSize
          = readFileSafe bigFile defaultMaxSize :=
  c5_oversized_placeholder bigFile 100001 rfl (by decide)

/-- C9: `read_file_safe` is total and always returns a string: despite the
`Optional[str]` annotation, every branch produces `some` string (oversized
and error branches produce placeholder strings), so `None` is never returned
and no exception escapes. -/
theorem c9_read_file_safe_total (f : FileModel) (maxSize : Nat) :
    ∃ s : String, readFileSafe f maxSize = some s := by
  cases h : f.statResult with
  | error e =>
    exact ⟨"[Error reading file: " ++ e ++ "]", by simp only [readFileSafe, h]⟩
  | ok size =>
    by_cases hs : size > maxSize
    · exact ⟨"[File too large: " ++ toString size ++ " bytes]",
        by simp only [readFileSafe, h]; rw [if_pos hs]⟩
    · cases hr : f.readResult with
      | error e =>
        exact ⟨"[Error reading file: " ++ e ++ "]",
          by simp only [readFileSafe, h, hr]; rw [if_neg hs]⟩
      | ok content =>
        exact ⟨content, by simp only [readFileSafe, h, hr]; rw [if_neg hs]⟩

/-- C6: if the startup `ollama.list()` call fails, both entry points exit
with code 1 before reaching the analysis phase. -/
theorem c6_backend_unreachable_exit (env : MainEnv) (e : String)
    (h : env.listResult = Except.error e) :
    mainIterative env = MainOutcome.exited 1 ∧ mainLocal env = MainOutcome.exited 1 := by
  cases hde : env.dirExists <;> cases hdd : env.dirIsDir <;>
    simp [mainIterative, mainLocal, hde, hdd, h]

/-- Witness for C6 at a concrete unreachable-backend environment. -/
theorem c6_backend_unreachable_exit_witness :
    mainIterative deadBackendEnv = MainOutcome.exited 1
    ∧ mainLocal deadBackendEnv = MainOutcome.exited 1 :=
  c6_backend_unreachable_exit deadBackendEnv "connection refused" rfl

/-- `mergeState` is associative (componentwise list append). -/
theorem mergeState_assoc (s1 s2 s3 : ReviewState) :
    mergeState (mergeState s1 s2) s3 = mergeState s1 (mergeState s2 s3) := by
  simp [mergeState, List.append_assoc]

/-- `initState` is a left unit for `mergeState`. -/
theorem mergeState_init_left (st : ReviewState) : mergeState initState st = st := by
  simp [mergeState, initState]

/-- `initState` is a right unit for `mergeState`. -/
theorem mergeState_init_right (st : ReviewState) : mergeState st initState = st := by
  simp [mergeState, initState]

/-- The review loop started from any state equals the start state merged into
the outcome of the loop started from the empty state: the loop only appends. -/
theorem reviewLoop_merge (ds : Nat → Decision) (t : Nat) :
    ∀ (ss : List Agent) (i : Nat) (st : ReviewState),
      reviewLoop ds ss i t st = mergeOutcome st (reviewLoop ds ss i t initState) := by
  intro ss
  induction ss with
  | nil =>
    intro i st
    simp [reviewLoop, mergeOutcome, mergeState_init_right]
  | cons a rest ih =>
    intro i st
    cases h : ds i
    case yes =>
      simp only [reviewLoop, h]
      simp [mergeOutcome, mergeState, initState]
    case no =>
      simp only [reviewLoop, h]
      rw [ih]
      conv_rhs => rw [ih]
      cases hE : reviewLoop ds rest (i + 1) t initState <;>
        simp [hE, mergeOutcome, mergeState, initState, List.append_assoc]
    case skip =>
      simp only [reviewLoop, h]
      rw [ih]
      conv_rhs => rw [ih]
      cases hE : reviewLoop ds rest (i + 1) t initState <;>
        simp [hE, mergeOutcome, mergeState, initState, List.append_assoc]
    case stop =>
      simp only [reviewLoop, h]
      simp [mergeOutcome, mergeState, initState]

/-- `outcomeState` commutes with `mergeOutcome`. -/
theorem outcomeState_mergeOutcome (s1 : ReviewState) (o : ReviewOutcome) :
    outcomeState (mergeOutcome s1 o) = mergeState s1 (outcomeState o) := by
  cases o <;> rfl

/-- The `accepted` bucket starts empty. -/
theorem initState_accepted : initState.accepted = [] := rfl

/-- The `rejected` bucket starts empty. -/
theorem initState_rejected : initState.rejected = [] := rfl

/-- The `skipped` bucket starts empty. -/
theorem initState_skipped : initState.skipped = [] := rfl

/-- No suggestion has been presented initially. -/
theorem initState_presented : initState.presented = [] := rfl

/-- No prompt file has been saved initially. -/
theorem initState_savedFiles : initState.savedFiles = [] := rfl

/-- If no decision before the last remaining suggestion is `stop` or `yes`,
the review loop presents every remaining suggestion, with consecutive
1-based indices and the displayed total `t`.  (A `stop` breaks the loop
early; a `yes` aborts the run with the uncaught `ValueError` of the accept
branch, so in either case no later suggestion is presented.) -/
theorem reviewLoop_presented_no_early_exit (ds : Nat → Decision) (t : Nat) :
    ∀ (ss : List Agent) (i : Nat),
      (∀ j, i ≤ j → j + 1 < i + ss.length →
        ds j ≠ Decision.stop ∧ ds j ≠ Decision.yes) →
      (outcomeState (reviewLoop ds ss i t initState)).presented
        = (List.enumFrom i ss).map (fun p => (p.1, t, p.2)) := by
  intro ss
  induction ss with
  | nil =>
    intro i _
    simp [reviewLoop, outcomeState, initState_presented]
  | cons a rest ih =>
    intro i h
    have hrest : ∀ j, i + 1 ≤ j → j + 1 < (i + 1) + rest.length →
        ds j ≠ Decision.stop ∧ ds j ≠ Decision.yes := by
      intro j hj1 hj2
      refine h j (by omega) ?_
      simp only [List.length_cons]
      omega
    cases hd : ds i
    case stop =>
      by_cases hr : rest = []
      · subst hr
        simp [reviewLoop, hd, outcomeState, initState_presented, List.enumFrom]
      · exfalso
        have hlen : 0 < rest.length := List.length_pos.mpr hr
        exact (h i (Nat.le_refl i) (by simp only [List.length_cons]; omega)).1 hd
    case yes =>
      by_cases hr : rest = []
      · subst hr
        simp [reviewLoop, hd, outcomeState, initState_presented, List.enumFrom]
      · exfalso
        have hlen : 0 < rest.length := List.length_pos.mpr hr
        exact (h i (Nat.le_refl i) (by simp only [List.length_cons]; omega)).2 hd
    case no =>
      simp only [reviewLoop, hd]
      rw [reviewLoop_merge]
      simp [outcomeState_mergeOutcome, mergeState, initState_presented,
        ih (i + 1) hrest, List.enumFrom_cons]
    case skip =>
      simp only [reviewLoop, hd]
      rw [reviewLoop_merge]
      simp [outcomeState_mergeOutcome, mergeState, initState_presented,
        ih (i + 1) hrest, List.enumFrom_cons]

/-- C1 counterexample: with two well-formed suggestions (N = 2 > 0) and a
user who answers `stop` at the first review, `run_iterative` performs only
one review iteration, not N.  The claim as stated (unconditionally exactly N
iterations) is therefore false. -/
theorem c1_stop_counterexample :
    0 < ([agAlpha, agBeta] : List Agent).length
    ∧ (outcomeState (runIterativeReview [agAlpha, agBeta]
          (fun _ => Decision.stop))).presented.length
        ≠ ([agAlpha, agBeta] : List Agent).length := by
  decide

/-- C1 (amended): if `generate_agent_suggestions` yields a well-formed list
of N > 0 suggestions and the user chooses neither `stop` nor `yes` before
the last suggestion, then `run_iterative` performs exactly N review
iterations, presenting suggestion i of N at iteration i, in list order.
(A `stop` at iteration k ends the review after k iterations; a `yes` at
iteration k aborts the run after k iterations, because the accept branch
raises an uncaught `ValueError` at its `Saved to:` print.) -/
theorem c1_iterations_amended (suggestions : List Agent) (ds : Nat → Decision)
    (_h0 : 0 < suggestions.length)
    (h : ∀ j, 1 ≤ j → j + 1 < 1 + suggestions.length →
      ds j ≠ Decision.stop ∧ ds j ≠ Decision.yes) :
    (outcomeState (runIterativeReview suggestions ds)).presented.length
        = suggestions.length
    ∧ (outcomeState (runIterativeReview suggestions ds)).presented
      = (List.enumFrom 1 suggestions).map (fun p => (p.1, suggestions.length, p.2)) := by
  have hp : (outcomeState (runIterativeReview suggestions ds)).presented
      = (List.enumFrom 1 suggestions).map (fun p => (p.1, suggestions.length, p.2)) :=
    reviewLoop_presented_no_early_exit ds suggestions.length suggestions 1 h
  exact ⟨by rw [hp]; simp, hp⟩

/-- Witness for the amended C1: two suggestions, a user who rejects both:
both suggestions are presented, with indices 1 and 2 of 2. -/
theorem c1_iterations_amended_witness :
    (outcomeState (runIterativeReview [agAlpha, agBeta]
        (fun _ => Decision.no))).presented.length
        = ([agAlpha, agBeta] : List Agent).length
    ∧ (outcomeState (runIterativeReview [agAlpha, agBeta]
        (fun _ => Decision.no))).presented
      = (List.enumFrom 1 [agAlpha, agBeta]).map
          (fun p => (p.1, ([agAlpha, agBeta] : List Agent).length, p.2)) :=
  c1_iterations_amended [agAlpha, agBeta] (fun _ => Decision.no) (by decide)
    (fun j h1 h2 =>
      ⟨fun hc => Decision.noConfusion hc, fun hc => Decision.noConfusion hc⟩)

/-- C2 (code bug): the source intends a `yes` decision to append the current
suggestion to the `accepted` bucket (line 469), but the accept branch first
prints `output_file.relative_to(Path.cwd())` (line 468), which
unconditionally raises an uncaught `ValueError` (relative output path
against absolute cwd), so the run aborts after the prompt file is written
and the `accepted` bucket never receives the agent.  Evaluations: a `yes` at
the first suggestion crashes with the suggestion presented, its prompt file
saved, and every bucket empty; `no` and `skip` append to `rejected` and
`skipped` and continue; `stop` appends to no bucket and ends the loop with
no further suggestion presented. -/
theorem c2_yes_crash_before_append :
    runIterativeReview [agAlpha] (fun _ => Decision.yes)
      = ReviewOutcome.crashed ⟨[], [], [], [(1, 1, agAlpha)], [saveAgentPromptPath agAlpha]⟩
    ∧ (outcomeState (runIterativeReview [agAlpha] (fun _ => Decision.yes))).accepted = []
    ∧ runIterativeReview [agAlpha, agBeta]
        (fun i => if i = 1 then Decision.no else Decision.skip)
      = ReviewOutcome.completed
          ⟨[], [agAlpha], [agBeta], [(1, 2, agAlpha), (2, 2, agBeta)], []⟩
    ∧ runIterativeReview [agAlpha, agBeta] (fun _ => Decision.stop)
      = ReviewOutcome.completed ⟨[], [], [], [(1, 2, agAlpha)], []⟩ := by
  decide

/-- Accumulating a per-agent entry over a list with `foldl` appends the
concatenation of all entries. -/
theorem foldl_entry_join (f : Agent → String) :
    ∀ (l : List Agent) (s : String),
      l.foldl (fun acc a => acc ++ f a) s = s ++ strJoin (l.map f) := by
  intro l
  induction l with
  | nil =>
    intro s
    simp [strJoin]
  | cons a rest ih =>
    intro s
    simp only [List.foldl_cons, List.map_cons, strJoin]
    rw [ih, String.append_assoc]

/-- A conditional summary section (header plus one entry per agent) factors
out of the accumulated text. -/
theorem summary_section_eq (f : Agent → String) (l : List Agent) (s hdr : String) :
    (if l.isEmpty then s else l.foldl (fun acc a => acc ++ f a) (s ++ hdr))
      = s ++ (if l.isEmpty then "" else hdr ++ strJoin (l.map f)) := by
  cases l with
  | nil => simp
  | cons a rest =>
    simp only [List.isEmpty_cons, Bool.false_eq_true, if_false]
    rw [foldl_entry_join, String.append_assoc]

/-- Same as `summary_section_eq` for the rejected section, which appends one
extra newline after the loop. -/
theorem summary_section_eq_nl (f : Agent → String) (l : List Agent) (s hdr : String) :
    (if l.isEmpty then s else (l.foldl (fun acc a => acc ++ f a) (s ++ hdr)) ++ "\n")
      = s ++ (if l.isEmpty then "" else (hdr ++ strJoin (l.map f)) ++ "\n") := by
  cases l with
  | nil => simp
  | cons a rest =>
    simp only [List.isEmpty_cons, Bool.false_eq_true, if_false]
    rw [foldl_entry_join]
    simp [String.append_assoc]

/-- The summary file contents decompose into the preamble, the three count
lines (computed as the lengths of the three buckets), and one section per
non-empty bucket enumerating exactly that bucket's agents in order. -/
theorem saveSummaryContent_decomp (dirStr dateStr modelStr : String) (A R S : List Agent) :
    saveSummaryContent dirStr dateStr modelStr A R S
      = "# Agent Network Expansion Summary\n\n"
        ++ ("**Analyzed Directory**: " ++ dirStr ++ "\n")
        ++ ("**Analysis Date**: " ++ dateStr ++ "\n")
        ++ ("**Model Used**: " ++ modelStr ++ "\n\n")
        ++ "---\n\n"
        ++ "## Summary\n\n"
        ++ ("- **Accepted**: " ++ toString A.length ++ " agents\n")
        ++ ("- **Rejected**: " ++ toString R.length ++ " agents\n")
        ++ ("- **Skipped**: " ++ toString S.length ++ " agents\n\n")
        ++ (if A.isEmpty then ""
            else "## Accepted Agents\n\n" ++ strJoin (A.map acceptedEntryText))
        ++ (if R.isEmpty then ""
            else ("## Rejected Agents\n\n" ++ strJoin (R.map rejectedEntryText)) ++ "\n")
        ++ (if S.isEmpty then ""
            else "## Skipped Agents (Review Later)\n\n" ++ strJoin (S.map skippedEntryText)) := by
  simp only [saveSummaryContent]
  rw [summary_section_eq acceptedEntryText]
  rw [summary_section_eq_nl rejectedEntryText]
  rw [summary_section_eq skippedEntryText]

/-- When the review loop completes normally (no suggestion accepted),
`run_iterative` reaches `save_summary` and writes the summary of exactly the
buckets accumulated by the loop. -/
theorem runIterativeFlow_summary_of_completed (suggestions : List Agent)
    (ds : Nat → Decision) (dirStr dateStr modelStr : String) (st : ReviewState)
    (h : runIterativeReview suggestions ds = ReviewOutcome.completed st) :
    runIterativeFlow suggestions ds dirStr dateStr modelStr
      = RunResult.summary
          (saveSummaryContent dirStr dateStr modelStr st.accepted st.rejected st.skipped) := by
  simp [runIterativeFlow, h]

/-- C3 (code bug): the summary writer itself is consistent with the buckets
(`saveSummaryContent_decomp`, `runIterativeFlow_summary_of_completed`), but
a run of the iterative flow in which a suggestion is accepted never reaches
`save_summary`: the accept branch raises an uncaught `ValueError` at its
`Saved to:` print, so no summary file is written for such a run at all —
evaluated here at a run whose single suggestion is answered `yes`. -/
theorem c3_accept_aborts_before_summary :
    runIterativeFlow [agAlpha] (fun _ => Decision.yes) "dir" "date" "model"
      = RunResult.uncaughtError := by
  decide

set_option maxHeartbeats 1000000 in
/-- Every entry of a bucket after one `addEntry` was already there or is the
inserted entry. -/
theorem mem_allEntries_addEntry {af : AgentFiles} {e x : FsEntry}
    (hx : x ∈ allEntries (addEntry af e)) : x ∈ allEntries af ∨ x = e := by
  simp only [addEntry] at hx
  split at hx
  · simp only [allEntries, List.mem_append, List.mem_singleton] at hx ⊢
    tauto
  · split at hx
    · simp only [allEntries, List.mem_append, List.mem_singleton] at hx ⊢
      tauto
    · split at hx
      · simp only [allEntries, List.mem_append, List.mem_singleton] at hx ⊢
        tauto
      · split at hx
        · simp only [allEntries, List.mem_append, List.mem_singleton] at hx ⊢
          tauto
        · simp only [allEntries, List.mem_append, List.mem_singleton] at hx ⊢
          tauto

/-- Every entry bucketed by the inner loop of `discover_agents` was already
bucketed or is a regular file of the iterated list. -/
theorem mem_foldl_discoverStep :
    ∀ (l : List FsEntry) (af : AgentFiles) (x : FsEntry),
      x ∈ allEntries (l.foldl discoverStep af) →
        x ∈ allEntries af ∨ (x ∈ l ∧ x.isFile = true) := by
  intro l
  induction l with
  | nil =>
    intro af x hx
    exact Or.inl hx
  | cons e rest ih =>
    intro af x hx
    simp only [List.foldl_cons] at hx
    rcases ih _ _ hx with h | ⟨hm, hf⟩
    · simp only [discoverStep] at h
      split at h
      · rcases mem_allEntries_addEntry h with h2 | h2
        · exact Or.inl h2
        · subst h2
          exact Or.inr ⟨List.mem_cons_self _ _, by assumption⟩
      · exact Or.inl h
    · exact Or.inr ⟨List.mem_cons_of_mem _ hm, hf⟩

/-- Every entry bucketed by the outer loop of `discover_agents` was already
bucketed or is a regular file matched by one of the iterated patterns. -/
theorem mem_foldl_patternStep (fs : List FsEntry) :
    ∀ (pl : List String) (af : AgentFiles) (x : FsEntry),
      x ∈ allEntries (pl.foldl (patternStep fs) af) →
        x ∈ allEntries af
        ∨ ∃ pat, pat ∈ pl ∧ x ∈ rglob fs pat ∧ x.isFile = true := by
  intro pl
  induction pl with
  | nil =>
    intro af x hx
    exact Or.inl hx
  | cons pat rest ih =>
    intro af x hx
    simp only [List.foldl_cons] at hx
    rcases ih _ _ hx with h | ⟨pat2, hp, hr, hf⟩
    · simp only [patternStep] at h
      rcases mem_foldl_discoverStep _ _ _ h with h2 | ⟨hm, hf⟩
      · exact Or.inl h2
      · exact Or.inr ⟨pat, List.mem_cons_self _ _, hm, hf⟩
    · exact Or.inr ⟨pat2, List.mem_cons_of_mem _ hp, hr, hf⟩

/-- C7: every path returned by `discover_agents` (in any bucket) is a regular
file of the searched directory that matches at least one of the declared glob
patterns under `rglob` semantics; no non-matching file appears. -/
theorem c7_discover_only_matching (fs : List FsEntry) (x : FsEntry)
    (hx : x ∈ allEntries (discoverAgents fs)) :
    x ∈ fs ∧ x.isFile = true
    ∧ ∃ pat, pat ∈ agentPatterns ∧ rglobMatches pat x.path = true := by
  rcases mem_foldl_patternStep fs agentPatterns emptyAgentFiles x hx with h | ⟨pat, hp, hr, hf⟩
  · simp [allEntries, emptyAgentFiles] at h
  · have hm := List.mem_filter.mp hr
    exact ⟨hm.1, hf, pat, hp, hm.2⟩

/-- Witness for C7: a file in an `agents/` subdirectory is discovered, lies in
the directory, and matches a declared pattern. -/
theorem c7_discover_only_matching_witness :
    nestedEntry ∈ [nestedEntry] ∧ nestedEntry.isFile = true
    ∧ ∃ pat, pat ∈ agentPatterns ∧ rglobMatches pat nestedEntry.path = true :=
  c7_discover_only_matching [nestedEntry] nestedEntry (by decide)

/-- C10: `discover_agents` does not deduplicate across patterns: in a
directory with the single file `system-prompt.md`, the file matches both
`*prompt*.md` and `*system*.md`, appears twice in the `md` bucket, and the
reported total file count is 2 although only 1 distinct file exists. -/
theorem c10_duplicate_discovery :
    rglobMatches "*prompt*.md" dupEntry.path = true
    ∧ rglobMatches "*system*.md" dupEntry.path = true
    ∧ (discoverAgents dupFs).md = [dupEntry, dupEntry]
    ∧ totalAgentFiles (discoverAgents dupFs) = 2
    ∧ dupFs.length = 1 := by
  decide

/-- C8: every generated system-prompt file lands in the two-directory tree
`findings/system-prompts/{orchestration,action}`: `save_agent_prompt`
(iterative script) writes `orchestration/<name>.md` exactly when the agent's
type is `orchestration` and `action/<name>.md` otherwise (with the sanitised
agent name as file name), and every file written by
`generate_system_prompts` (local script) has a path of that same shape. -/
theorem c8_prompt_paths :
    (∀ a : Agent, a.type = "orchestration" →
      saveAgentPromptPath a
        = ["findings", "system-prompts", "orchestration", sanitizeIterName a.name ++ ".md"])
    ∧ (∀ a : Agent, a.type ≠ "orchestration" →
      saveAgentPromptPath a
        = ["findings", "system-prompts", "action", sanitizeIterName a.name ++ ".md"])
    ∧ (∀ (resp : String) (p : List String), p ∈ generateSystemPromptsPaths resp →
      ∃ d nm, (d = "orchestration" ∨ d = "action")
        ∧ p = ["findings", "system-prompts", d, nm ++ ".md"]) := by
  refine ⟨?_, ?_, ?_⟩
  · intro a ha
    simp [saveAgentPromptPath, ha]
  · intro a ha
    simp only [saveAgentPromptPath]
    rw [if_neg (by simp [ha])]
    rfl
  · intro resp p hp
    simp only [generateSystemPromptsPaths] at hp
    rcases List.mem_filterMap.mp hp with ⟨pr, hmem, hf⟩
    simp only [Option.ite_none_left_eq_some, Option.some.injEq] at hf
    obtain ⟨hne, hpeq⟩ := hf
    by_cases ho : isOrchPrompt (pyStrip pr.2) = true
    · refine ⟨"orchestration", extractAgentName (pyStrip pr.2) (pr.1 + 1), Or.inl rfl, ?_⟩
      rw [← hpeq, if_pos ho]
    · refine ⟨"action", extractAgentName (pyStrip pr.2) (pr.1 + 1), Or.inr rfl, ?_⟩
      rw [← hpeq, if_neg ho]

/-- Witness for C8: an orchestration agent, an action agent, and a concrete
prompt file produced by the local script's generator. -/
theorem c8_prompt_paths_witness :
    saveAgentPromptPath agAlpha
      = ["findings", "system-prompts", "orchestration", sanitizeIterName agAlpha.name ++ ".md"]
    ∧ saveAgentPromptPath agBeta
      = ["findings", "system-prompts", "action", sanitizeIterName agBeta.name ++ ".md"]
    ∧ ∃ d nm, (d = "orchestration" ∨ d = "action")
        ∧ ["findings", "system-prompts", "action", "agent-1.md"]
          = ["findings", "system-prompts", d, nm ++ ".md"] :=
  ⟨c8_prompt_paths.1 agAlpha rfl,
   c8_prompt_paths.2.1 agBeta (by decide),
   c8_prompt_paths.2.2 "hello world" ["findings", "system-prompts", "action", "agent-1.md"]
     (by decide)⟩
